import Mathlib

/-
Verification of the NYT best-sellers ingestion pipeline: a shallow
embedding of scripts/init-db.js, scripts/update-db.js and the SQLite
schema (schema.sql), with theorems about the pipeline behaviour.

Dates are modelled as day numbers (days since the Unix epoch, as Nat);
the JS code builds weekly checkpoint date strings with 7-day Date
arithmetic, which corresponds to stepping the day number by 7.
Database TEXT timestamps that are only stored verbatim (sync_date,
created_date, updated_date) are modelled as opaque strings.  SQLite
AUTOINCREMENT row ids are modelled by per-table counters that are never
reused.  Foreign keys are not enforced (better-sqlite3 leaves SQLite
foreign_keys off and no script issues the pragma).
-/

namespace Bestsellers

/-- A calendar date as a day number (days since 1970-01-01). -/
abbrev Date := Nat

/-- JS truthiness of an optional string field: undefined, null and the
empty string are falsy. -/
def truthy : Option String → Bool
  | none => false
  | some s => s != ""

/-- One entry of the isbns array carried on a remote book record. -/
structure IsbnPair where
  isbn13 : Option String
  isbn10 : Option String
deriving DecidableEq

/-- A remote book record as consumed by findOrCreateBook and the
ranking insert (fields of one element of data.results.books). -/
structure BookData where
  primary_isbn13 : Option String := none
  primary_isbn10 : Option String := none
  title : Option String := none
  author : Option String := none
  publisher : Option String := none
  book_description : Option String := none
  price : Option String := none
  book_image : Option String := none
  book_image_width : Option Int := none
  book_image_height : Option Int := none
  amazon_product_url : Option String := none
  book_review_link : Option String := none
  isbns : List IsbnPair := []
  rank : Int := 1
  rank_last_week : Option Int := none
  weeks_on_list : Option Int := none
  asterisk : Option Int := none
  dagger : Option Int := none
deriving DecidableEq

/-- A row of the lists table. -/
structure ListRow where
  list_id : Nat
  list_name_encoded : String
  display_name : String
  list_name : String
  oldest_published_date : Date
  newest_published_date : Date
  updated : String
deriving DecidableEq

/-- A row of the books table (title is NOT NULL in the schema). -/
structure BookRow where
  book_id : Nat
  primary_isbn13 : Option String
  primary_isbn10 : Option String
  title : String
  author : Option String
  publisher : Option String
  book_description : Option String
  price : Option String
  book_image : Option String
  book_image_width : Option Int
  book_image_height : Option Int
  amazon_product_url : Option String
  book_review_link : Option String
  created_date : String
  updated_date : String
deriving DecidableEq

/-- A row of the isbns table. -/
structure IsbnRow where
  isbn_id : Nat
  book_id : Nat
  isbn13 : Option String
  isbn10 : Option String
deriving DecidableEq

/-- A row of the rankings table;
UNIQUE(list_id, book_id, published_date). -/
structure RankingRow where
  ranking_id : Nat
  list_id : Nat
  book_id : Nat
  published_date : Date
  bestsellers_date : Date
  rank : Int
  rank_last_week : Option Int
  weeks_on_list : Option Int
  asterisk : Int
  dagger : Int
deriving DecidableEq

/-- A row of the sync_log table. -/
structure SyncLogRow where
  sync_id : Nat
  sync_type : String
  sync_list_name : Option String
  sync_date : String
  published_date : Option Date
  records_added : Nat
  status : String
  error_message : Option String
deriving DecidableEq

/-- The local SQLite store.  The next_* counters model AUTOINCREMENT
rowids (monotone, never reused). -/
structure DB where
  lists : List ListRow
  books : List BookRow
  isbns : List IsbnRow
  rankings : List RankingRow
  sync_log : List SyncLogRow
  next_list_id : Nat
  next_book_id : Nat
  next_isbn_id : Nat
  next_ranking_id : Nat
  next_sync_id : Nat
deriving DecidableEq

/-- An empty freshly initialized database (rowids start at 1). -/
def emptyDB : DB :=
  { lists := [], books := [], isbns := [], rankings := [], sync_log := [],
    next_list_id := 1, next_book_id := 1, next_isbn_id := 1,
    next_ranking_id := 1, next_sync_id := 1 }

/-- Append a failed sync_log row (the catch blocks of both scripts).
The init script binds the checkpoint date into published_date; the
update script omits the column, so its failure rows carry none. -/
def failRecord (db : DB) (syncType : String) (listName : String)
    (syncDate : String) (pubDate : Option Date) (msg : String) : DB :=
  { db with
    sync_log := db.sync_log ++
      [{ sync_id := db.next_sync_id, sync_type := syncType,
         sync_list_name := some listName, sync_date := syncDate,
         published_date := pubDate, records_added := 0,
         status := "error", error_message := some msg }],
    next_sync_id := db.next_sync_id + 1 }

/-- Append a success sync_log row (executed inside the save
transaction in both scripts). -/
def successRecord (db : DB) (syncType : String) (listName : String)
    (syncDate : String) (pubDate : Date) (recordsAdded : Nat) : DB :=
  { db with
    sync_log := db.sync_log ++
      [{ sync_id := db.next_sync_id, sync_type := syncType,
         sync_list_name := some listName, sync_date := syncDate,
         published_date := some pubDate, records_added := recordsAdded,
         status := "success", error_message := none }],
    next_sync_id := db.next_sync_id + 1 }

/-- A remote list descriptor (one element of the lists/names results). -/
structure ListDescriptor where
  list_name_encoded : String
  display_name : String
  list_name : String
  oldest_published_date : Date
  newest_published_date : Date
  updated : String
deriving DecidableEq

/-- INSERT OR REPLACE INTO lists, keyed by the UNIQUE
list_name_encoded column.  SQLite REPLACE deletes the conflicting row
and inserts a fresh one; list_id is not supplied, so the new row gets
the next AUTOINCREMENT id. -/
def insertOrReplaceList (db : DB) (d : ListDescriptor) : DB :=
  { db with
    lists := db.lists.filter
        (fun r => r.list_name_encoded != d.list_name_encoded) ++
      [{ list_id := db.next_list_id,
         list_name_encoded := d.list_name_encoded,
         display_name := d.display_name, list_name := d.list_name,
         oldest_published_date := d.oldest_published_date,
         newest_published_date := d.newest_published_date,
         updated := d.updated }],
    next_list_id := db.next_list_id + 1 }

/-- saveLists of init-db.js: one INSERT OR REPLACE per descriptor. -/
def saveLists (db : DB) (ds : List ListDescriptor) : DB :=
  ds.foldl insertOrReplaceList db

/-- The book lookup of findOrCreateBook: first by primary_isbn13 when
truthy, then, if that produced nothing, by primary_isbn10 when truthy
(the JS code assigns the first probe and reprobes only while book is
still falsy). -/
def lookupBook (db : DB) (bd : BookData) : Option BookRow :=
  (if truthy bd.primary_isbn13 then
      db.books.find? (fun b => b.primary_isbn13 == bd.primary_isbn13)
    else none).or
  (if truthy bd.primary_isbn10 then
      db.books.find? (fun b => b.primary_isbn10 == bd.primary_isbn10)
    else none)

/-- The UPDATE branch of findOrCreateBook: overwrite every descriptive
field and the updated_date timestamp, leaving identity fields alone. -/
def overwriteBook (b : BookRow) (bd : BookData) (t : String)
    (now : String) : BookRow :=
  { b with
    title := t, author := bd.author, publisher := bd.publisher,
    book_description := bd.book_description, price := bd.price,
    book_image := bd.book_image,
    book_image_width := bd.book_image_width,
    book_image_height := bd.book_image_height,
    amazon_product_url := bd.amazon_product_url,
    book_review_link := bd.book_review_link, updated_date := now }

/-- Insert one isbns row per alias pair under the given book id. -/
def insertIsbns (db : DB) (bookId : Nat) : List IsbnPair → DB
  | [] => db
  | p :: rest =>
    insertIsbns
      { db with
        isbns := db.isbns ++
          [{ isbn_id := db.next_isbn_id, book_id := bookId,
             isbn13 := p.isbn13, isbn10 := p.isbn10 }],
        next_isbn_id := db.next_isbn_id + 1 }
      bookId rest

/-- The per-row effect of the UPDATE statement of findOrCreateBook:
overwrite the row with the matching book_id, leave all others alone. -/
def resolveUpdateFn (bookId : Nat) (bd : BookData) (t now : String)
    (r : BookRow) : BookRow :=
  if r.book_id == bookId then overwriteBook r bd t now else r

/-- The fresh books row built by the INSERT branch of
findOrCreateBook: both identifier fields, all descriptive fields, and
both observation timestamps set to now. -/
def newBookRow (db : DB) (bd : BookData) (t now : String) : BookRow :=
  { book_id := db.next_book_id,
    primary_isbn13 := bd.primary_isbn13,
    primary_isbn10 := bd.primary_isbn10,
    title := t, author := bd.author, publisher := bd.publisher,
    book_description := bd.book_description, price := bd.price,
    book_image := bd.book_image,
    book_image_width := bd.book_image_width,
    book_image_height := bd.book_image_height,
    amazon_product_url := bd.amazon_product_url,
    book_review_link := bd.book_review_link,
    created_date := now, updated_date := now }

/-- findOrCreateBook (identical in init-db.js and update-db.js).  The
books.title column is NOT NULL, so binding a missing title makes the
statement throw; that is the write-failure path of a checkpoint. -/
def findOrCreateBook (db : DB) (bd : BookData) (now : String) :
    Except String (DB × Nat) :=
  match lookupBook db bd with
  | some b =>
    match bd.title with
    | none => .error "NOT NULL constraint failed: books.title"
    | some t =>
      .ok ({ db with
              books := db.books.map (resolveUpdateFn b.book_id bd t now) },
           b.book_id)
  | none =>
    match bd.title with
    | none => .error "NOT NULL constraint failed: books.title"
    | some t =>
      let newRow := newBookRow db bd t now
      let db1 :=
        { db with
          books := db.books ++ [newRow],
          next_book_id := db.next_book_id + 1 }
      .ok (insertIsbns db1 newRow.book_id bd.isbns, newRow.book_id)

/-- Whether a ranking row has the given (list, book, publish date)
triple, the UNIQUE key of the rankings table. -/
def sameTriple (listId bookId : Nat) (pd : Date) (r : RankingRow) :
    Bool :=
  r.list_id == listId && r.book_id == bookId && r.published_date == pd

/-- The fresh ranking row built by the INSERT OR REPLACE statement
(asterisk and dagger go through the JS default of 0). -/
def newRankingRow (db : DB) (listId bookId : Nat) (pd bsd : Date)
    (bd : BookData) : RankingRow :=
  { ranking_id := db.next_ranking_id, list_id := listId,
    book_id := bookId, published_date := pd, bestsellers_date := bsd,
    rank := bd.rank, rank_last_week := bd.rank_last_week,
    weeks_on_list := bd.weeks_on_list,
    asterisk := bd.asterisk.getD 0, dagger := bd.dagger.getD 0 }

/-- INSERT OR REPLACE INTO rankings.  On a UNIQUE(list_id, book_id,
published_date) conflict SQLite REPLACE deletes the existing row and
inserts a fresh one with the next AUTOINCREMENT ranking_id, so the
statement never raises the uniqueness error and the surrounding catch
block in both scripts is unreachable. -/
def insertOrReplaceRanking (db : DB) (listId bookId : Nat)
    (pd bsd : Date) (bd : BookData) : DB :=
  { db with
    rankings := db.rankings.filter
        (fun r => !(sameTriple listId bookId pd r)) ++
      [newRankingRow db listId bookId pd bsd bd],
    next_ranking_id := db.next_ranking_id + 1 }

/-- The loop body of the save transaction in both scripts: resolve
each book, write its ranking, and accumulate the booksAdded and
rankingsAdded counters.  A thrown book write aborts the whole body. -/
def saveDataLoop (db : DB) (listId : Nat) (pd bsd : Date)
    (now : String) : List BookData → Except String (DB × Nat × Nat)
  | [] => .ok (db, 0, 0)
  | bd :: rest =>
    match findOrCreateBook db bd now with
    | .error e => .error e
    | .ok (db1, bookId) =>
      match saveDataLoop (insertOrReplaceRanking db1 listId bookId pd bsd bd)
          listId pd bsd now rest with
      | .error e => .error e
      | .ok (db3, ba, ra) => .ok (db3, ba + 1, ra + 1)

/-- The saveData transaction of both scripts: the book and ranking
writes followed by the success sync_log insert, all in one
transaction.  The caller keeps the pre-transaction store when the body
throws (better-sqlite3 rolls the transaction back). -/
def saveData (db : DB) (syncType : String) (listId : Nat)
    (listName : String) (books : List BookData) (pd bsd : Date)
    (now : String) : Except String (DB × Nat × Nat) :=
  match saveDataLoop db listId pd bsd now books with
  | .error e => .error e
  | .ok (db1, ba, ra) =>
    .ok (successRecord db1 syncType listName now pd ra, ba, ra)

/-- The outcome of one remote HTTP round trip, as seen after the
response arrives: either a successful 2xx response with a parsed JSON
body, or a non-2xx response with its status code and reason phrase. -/
inductive HttpResult (α : Type) where
  | success (body : α)
  | failure (status : Nat) (statusText : String)

/-- The error message thrown on a non-2xx response in both scripts. -/
def httpErrorMsg (status : Nat) (statusText : String) : String :=
  "API request failed: " ++ toString status ++ " " ++ statusText

/-- The daily call ceiling configured in init-db.js. -/
def MAX_REQUESTS_PER_DAY : Nat := 500

/-- The quota error message thrown by init-db.js. -/
def quotaMsg : String := "Daily API limit reached (500 requests)"

/-- rateLimitedFetch of init-db.js: refuse with the quota error, and
without touching the network, once requestCount has reached the daily
ceiling; otherwise count the call and raise on a non-2xx response.
The first component is the updated requestCount (the call counter is
also the record of whether a remote request was attempted). -/
def rateLimitedFetchInit {α : Type} (requestCount : Nat)
    (resp : HttpResult α) : Nat × Except String α :=
  if requestCount ≥ MAX_REQUESTS_PER_DAY then
    (requestCount, .error quotaMsg)
  else
    match resp with
    | .success a => (requestCount + 1, .ok a)
    | .failure s t => (requestCount + 1, .error (httpErrorMsg s t))

/-- rateLimitedFetch of update-db.js: same shape but with no daily
call ceiling at all — every call is attempted. -/
def rateLimitedFetchUpdate {α : Type} (requestCount : Nat)
    (resp : HttpResult α) : Nat × Except String α :=
  match resp with
  | .success a => (requestCount + 1, .ok a)
  | .failure s t => (requestCount + 1, .error (httpErrorMsg s t))

/-- data.results of a per-date or current snapshot response. -/
structure ResultsBody where
  books : Option (List BookData)
  published_date : Date
  bestsellers_date : Date
deriving DecidableEq

/-- The JSON envelope of a snapshot response; results may be absent. -/
structure Envelope where
  results : Option ResultsBody
deriving DecidableEq

/-- The result value of updateList in update-db.js, as consumed by the
update orchestrator main loop. -/
inductive UpdateResult where
  | notFound
  | noData
  | failed (msg : String)
  | skipped (publishedDate : Date)
  | updated (publishedDate : Date) (booksAdded rankingsAdded : Nat)
deriving DecidableEq

/-- The pre-write duplicate check of updateList: number of ranking
rows already present for the list at the returned publish date. -/
def countExisting (db : DB) (listId : Nat) (pd : Date) : Nat :=
  (db.rankings.filter
    (fun r => r.list_id == listId && r.published_date == pd)).length

/-- updateList of update-db.js for one list: look the list up, fetch
the current snapshot, skip when data for the returned publish date is
already present (unless forced), otherwise run the save transaction;
fetch and transaction failures are caught and logged as an error
sync_log row (with no published_date bound).  A stored list_id of 0 is
treated as missing, mirroring the JS truthiness test on the id. -/
def updateList (db : DB) (requestCount : Nat) (listName : String)
    (force : Bool) (resp : HttpResult Envelope) (now : String) :
    DB × Nat × UpdateResult :=
  match db.lists.find? (fun l => l.list_name_encoded == listName) with
  | none => (db, requestCount, .notFound)
  | some l =>
    if l.list_id == 0 then (db, requestCount, .notFound)
    else
      match rateLimitedFetchUpdate requestCount resp with
      | (rc, .error msg) =>
        (failRecord db "update" listName now none msg, rc, .failed msg)
      | (rc, .ok env) =>
        match env.results with
        | none => (db, rc, .noData)
        | some res =>
          match res.books with
          | none => (db, rc, .noData)
          | some books =>
            if countExisting db l.list_id res.published_date > 0
                && !force then
              (db, rc, .skipped res.published_date)
            else
              match saveData db "update" l.list_id listName books
                  res.published_date res.bestsellers_date now with
              | .ok (db1, ba, ra) =>
                (db1, rc, .updated res.published_date ba ra)
              | .error msg =>
                (failRecord db "update" listName now none msg, rc,
                 .failed msg)

/-- Accumulator of the update orchestrator main loop. -/
structure UpdateRun where
  db : DB
  requestCount : Nat
  successCount : Nat
  skippedCount : Nat
  errorCount : Nat
  totalRankingsAdded : Nat
deriving DecidableEq

/-- One iteration of the update orchestrator main loop: call
updateList and tally the outcome. -/
def updateStep (responses : String → HttpResult Envelope)
    (force : Bool) (now : String) (s : UpdateRun) (l : ListRow) :
    UpdateRun :=
  match updateList s.db s.requestCount l.list_name_encoded force
      (responses l.list_name_encoded) now with
  | (db1, rc, r) =>
    match r with
    | .skipped _ =>
      { s with
        db := db1, requestCount := rc,
        skippedCount := s.skippedCount + 1 }
    | .updated _ _ ra =>
      { s with
        db := db1, requestCount := rc,
        successCount := s.successCount + 1,
        totalRankingsAdded := s.totalRankingsAdded + ra }
    | _ =>
      { s with
        db := db1, requestCount := rc,
        errorCount := s.errorCount + 1 }

/-- Insertion sort of the list rows by display_name, modelling the
ORDER BY display_name of the main loop query. -/
def insertByName (r : ListRow) : List ListRow → List ListRow
  | [] => [r]
  | x :: xs =>
    if r.display_name ≤ x.display_name then r :: x :: xs
    else x :: insertByName r xs

/-- The rows of the lists table ordered by display_name. -/
def sortLists : List ListRow → List ListRow
  | [] => []
  | x :: xs => insertByName x (sortLists xs)

/-- The update-orchestrator accumulator at the start of a run: the
opened store and all module-level counters fresh. -/
def updateRun0 (db : DB) : UpdateRun :=
  { db := db, requestCount := 0, successCount := 0,
    skippedCount := 0, errorCount := 0, totalRankingsAdded := 0 }

/-- main of update-db.js: update every known list in display-name
order, then exit with status 1 exactly when at least one list attempt
failed (and 0 otherwise).  The run starts with a fresh call counter. -/
def updateMainRun (db : DB) (force : Bool)
    (responses : String → HttpResult Envelope) (now : String) :
    UpdateRun × Nat :=
  let final := (sortLists db.lists).foldl
    (updateStep responses force now) (updateRun0 db)
  (final, if final.errorCount > 0 then 1 else 0)

/-- The weekly checkpoint grid of fetchListHistory: every date from
cur in 7-day steps while still no later than last. -/
def checkpointDates (cur last : Nat) : List Date :=
  if h : cur ≤ last then cur :: checkpointDates (cur + 7) last else []
termination_by last + 1 - cur
decreasing_by omega

/-- Day number (days since 1970-01-01) of a civil calendar date, for
years in the common era; all divisions are exact Nat divisions and the
subtractions never truncate for the post-1970 dates the pipeline
handles. -/
def daysFromCivil (y m d : Nat) : Nat :=
  let y1 := if m ≤ 2 then y - 1 else y
  let era := y1 / 400
  let yoe := y1 - era * 400
  let mp := if m > 2 then m - 3 else m + 9
  let doy := (153 * mp + 2) / 5 + d - 1
  let doe := yoe * 365 + yoe / 4 - yoe / 100 + doy
  era * 146097 + doe - 719468

/-- Shared orchestration state of init-db.js: the store plus the
module-level request counter. -/
structure InitState where
  db : DB
  requestCount : Nat
deriving DecidableEq

/-- One checkpoint of fetchListHistory: fetch the snapshot for one
date; a thrown fetch (quota or HTTP) or a thrown save transaction is
caught and logged as an error sync_log row bound to the checkpoint
date, and a response without results or books is skipped silently. -/
def processInitDate (listId : Nat) (listName : String)
    (responses : Date → HttpResult Envelope) (now : String)
    (st : InitState) (date : Date) : InitState :=
  match rateLimitedFetchInit st.requestCount (responses date) with
  | (rc, .error msg) =>
    { db := failRecord st.db "init" listName now (some date) msg,
      requestCount := rc }
  | (rc, .ok env) =>
    match env.results with
    | none => { db := st.db, requestCount := rc }
    | some res =>
      match res.books with
      | none => { db := st.db, requestCount := rc }
      | some books =>
        match saveData st.db "init" listId listName books
            res.published_date res.bestsellers_date now with
        | .ok (db1, _, _) => { db := db1, requestCount := rc }
        | .error msg =>
          { db := failRecord st.db "init" listName now (some date) msg,
            requestCount := rc }

/-- The checkpoint loop of fetchListHistory over a given date grid. -/
def processInitDates (listId : Nat) (listName : String)
    (responses : Date → HttpResult Envelope) (now : String)
    (st : InitState) (dates : List Date) : InitState :=
  dates.foldl (processInitDate listId listName responses now) st

/-- fetchListHistory of init-db.js: resolve the list id, build the
weekly checkpoint grid from the since date (when given) or the oldest
known date up to the newest known date, and ingest every checkpoint.
A missing list (or a stored id of 0, falsy in JS) is skipped. -/
def fetchListHistory (st : InitState) (listName : String)
    (oldest newest : Date) (since : Option Date)
    (responses : Date → HttpResult Envelope) (now : String) :
    InitState :=
  match st.db.lists.find? (fun l => l.list_name_encoded == listName) with
  | none => st
  | some l =>
    if l.list_id == 0 then st
    else
      let startDate := match since with
        | some s => s
        | none => oldest
      processInitDates l.list_id listName responses now st
        (checkpointDates startDate newest)

/-- main of init-db.js (the non-dry-run execution path): open the
store, fetch the list catalog (a thrown catalog fetch is fatal and
exits with status 1), save it, then ingest the history of every
selected list; per-checkpoint failures are swallowed inside
fetchListHistory, so the run then ends with exit status 0.  The second
component is the process exit status. -/
def initMainRun (db : DB)
    (catalog : HttpResult (List ListDescriptor))
    (listsFilter : Option (List String)) (since : Option Date)
    (responses : String → Date → HttpResult Envelope)
    (now : String) : InitState × Nat :=
  match rateLimitedFetchInit 0 catalog with
  | (rc, .error _) => ({ db := db, requestCount := rc }, 1)
  | (rc, .ok ds) =>
    let db1 := if ds.length > 0 then saveLists db ds else db
    let toFetch := match listsFilter with
      | some names =>
        ds.filter
          (fun (l : ListDescriptor) =>
            names.contains l.list_name_encoded)
      | none => ds
    let final := toFetch.foldl
      (fun (st : InitState) (l : ListDescriptor) =>
        fetchListHistory st l.list_name_encoded
        l.oldest_published_date l.newest_published_date since
        (responses l.list_name_encoded) now)
      { db := db1, requestCount := rc }
    (final, 0)

/-- Membership in the weekly checkpoint grid: exactly the dates that
are a whole number of weeks past the start and no later than the end. -/
theorem checkpointDates_mem (s e d : Nat) :
    d ∈ checkpointDates s e ↔ ∃ k : Nat, d = s + 7 * k ∧ d ≤ e := by
  rw [checkpointDates]
  by_cases h : s ≤ e
  · simp only [dif_pos h, List.mem_cons]
    constructor
    · intro hd
      rcases hd with hd | hd
      · exact ⟨0, by omega, by omega⟩
      · obtain ⟨k, hk1, hk2⟩ := (checkpointDates_mem (s + 7) e d).mp hd
        exact ⟨k + 1, by omega, hk2⟩
    · rintro ⟨k, hk1, hk2⟩
      match k with
      | 0 => left; omega
      | k + 1 =>
        right
        exact (checkpointDates_mem (s + 7) e d).mpr ⟨k, by omega, hk2⟩
  · simp only [dif_neg h, List.not_mem_nil, false_iff, not_exists]
    rintro k ⟨hk1, hk2⟩
    omega
termination_by e + 1 - s
decreasing_by all_goals omega

/-- Claim C3, corrected part: the incremental-update fetch client has
no daily call ceiling at all.  At a call count that has already
reached the ceiling configured in the backfill script, the update
client still attempts the remote request (the counter advances past
the ceiling) and returns the response body. -/
theorem c3_update_fetch_has_no_quota_counterexample :
    rateLimitedFetchUpdate MAX_REQUESTS_PER_DAY
      (HttpResult.success ({ results := none } : Envelope))
      = (MAX_REQUESTS_PER_DAY + 1, .ok { results := none }) := rfl

/-- Claim C3, amended: only the backfill fetch client enforces the
daily call ceiling, refusing with the quota error and leaving the call
counter untouched (no request attempted); the incremental-update
client has no ceiling and always attempts the call.  In both clients a
non-2xx response raises an error carrying the HTTP status code and
reason phrase. -/
theorem c3_rate_limited_fetch_amended :
    (∀ (α : Type) (rc : Nat) (resp : HttpResult α),
      rc ≥ MAX_REQUESTS_PER_DAY →
      rateLimitedFetchInit rc resp = (rc, .error quotaMsg))
    ∧ (∀ (α : Type) (rc s : Nat) (t : String),
      rc < MAX_REQUESTS_PER_DAY →
      rateLimitedFetchInit rc (HttpResult.failure s t : HttpResult α)
        = (rc + 1, .error (httpErrorMsg s t)))
    ∧ (∀ (α : Type) (rc s : Nat) (t : String),
      rateLimitedFetchUpdate rc (HttpResult.failure s t : HttpResult α)
        = (rc + 1, .error (httpErrorMsg s t)))
    ∧ (∀ (α : Type) (rc : Nat) (b : α),
      rateLimitedFetchUpdate rc (.success b) = (rc + 1, .ok b)) := by
  refine ⟨fun α rc resp h => ?_, fun α rc s t h => ?_,
    fun α rc s t => rfl, fun α rc b => rfl⟩
  · simp [rateLimitedFetchInit, h]
  · simp [rateLimitedFetchInit, Nat.not_le_of_lt h]

/-- Witness for the amended claim C3 at concrete inputs: the backfill
client refuses call number 500 without attempting it, and the update
client turns a 404 into an error naming the status and reason. -/
theorem c3_rate_limited_fetch_amended_witness :
    rateLimitedFetchInit 500 (HttpResult.success (0 : Nat))
      = (500, .error quotaMsg)
    ∧ rateLimitedFetchUpdate 3
        (HttpResult.failure 404 "Not Found" : HttpResult Nat)
      = (4, .error (httpErrorMsg 404 "Not Found")) :=
  ⟨c3_rate_limited_fetch_amended.1 Nat 500 (HttpResult.success 0)
      (by norm_num [MAX_REQUESTS_PER_DAY]),
   c3_rate_limited_fetch_amended.2.2.1 Nat 3 404 "Not Found"⟩

/-- Claim C7: the backfill checkpoint grid consists of the 7-day steps
from the start date (the oldest known date, or the caller-supplied
since date, as wired up in fetchListHistory) up to and including the
newest date; concretely, the range 2024-01-01 to 2024-01-22 yields
exactly the four checkpoints 01-01, 01-08, 01-15 and 01-22. -/
theorem c7_backfill_weekly_checkpoints :
    (∀ s e d : Nat,
      d ∈ checkpointDates s e ↔ ∃ k : Nat, d = s + 7 * k ∧ d ≤ e)
    ∧ checkpointDates (daysFromCivil 2024 1 1) (daysFromCivil 2024 1 22)
      = [daysFromCivil 2024 1 1, daysFromCivil 2024 1 8,
         daysFromCivil 2024 1 15, daysFromCivil 2024 1 22] := by
  constructor
  · exact checkpointDates_mem
  · have h1 : daysFromCivil 2024 1 1 = 19723 := by decide
    have h8 : daysFromCivil 2024 1 8 = 19730 := by decide
    have h15 : daysFromCivil 2024 1 15 = 19737 := by decide
    have h22 : daysFromCivil 2024 1 22 = 19744 := by decide
    rw [h1, h8, h15, h22]
    simp [checkpointDates]

/-- Witness for claim C7: 2024-01-08 (one week in) is in the grid of
the 2024-01-01 to 2024-01-22 range. -/
theorem c7_backfill_weekly_checkpoints_witness :
    19730 ∈ checkpointDates 19723 19744 :=
  (c7_backfill_weekly_checkpoints.1 19723 19744 19730).mpr
    ⟨1, by norm_num, by norm_num⟩

/-- The isbns rows inserted for a list of alias pairs, starting at a
given AUTOINCREMENT id. -/
def isbnRowsFrom (startId bookId : Nat) : List IsbnPair → List IsbnRow
  | [] => []
  | p :: rest =>
    { isbn_id := startId, book_id := bookId,
      isbn13 := p.isbn13, isbn10 := p.isbn10 } ::
      isbnRowsFrom (startId + 1) bookId rest

/-- Closed form of insertIsbns: it only appends isbns rows and
advances the isbns counter. -/
theorem insertIsbns_eq (bid : Nat) (ps : List IsbnPair) (db : DB) :
    insertIsbns db bid ps =
      { db with
        isbns := db.isbns ++ isbnRowsFrom db.next_isbn_id bid ps,
        next_isbn_id := db.next_isbn_id + ps.length } := by
  induction ps generalizing db with
  | nil => simp [insertIsbns, isbnRowsFrom]
  | cons p rest ih =>
    rw [insertIsbns, ih]
    cases db
    simp [isbnRowsFrom]
    omega

/-- The UPDATE of findOrCreateBook never changes a row's book_id or
either of its identifier columns. -/
theorem resolveUpdateFn_preserves (bookId : Nat) (bd : BookData)
    (t now : String) (r : BookRow) :
    (resolveUpdateFn bookId bd t now r).book_id = r.book_id
    ∧ (resolveUpdateFn bookId bd t now r).primary_isbn13
        = r.primary_isbn13
    ∧ (resolveUpdateFn bookId bd t now r).primary_isbn10
        = r.primary_isbn10 := by
  unfold resolveUpdateFn overwriteBook
  by_cases h : r.book_id == bookId <;> simp [h]

/-- A lookup that returns none means both identifier probes missed. -/
theorem lookupBook_eq_none_iff (db : DB) (bd : BookData) :
    lookupBook db bd = none ↔
      (if truthy bd.primary_isbn13 then
        db.books.find?
          (fun b => b.primary_isbn13 == bd.primary_isbn13)
      else none) = none
      ∧ (if truthy bd.primary_isbn10 then
        db.books.find?
          (fun b => b.primary_isbn10 == bd.primary_isbn10)
      else none) = none := by
  unfold lookupBook
  exact Option.or_eq_none

/-- After a successful resolve of a record carrying at least one
truthy identifier, a later lookup with the same two identifier values
finds a row whose book_id is the id the resolve returned. -/
theorem lookupBook_after_resolve (db db' : DB) (bd bd' : BookData)
    (now t : String) (id : Nat)
    (htitle : bd.title = some t)
    (hrun : findOrCreateBook db bd now = .ok (db', id))
    (h13 : bd'.primary_isbn13 = bd.primary_isbn13)
    (h10 : bd'.primary_isbn10 = bd.primary_isbn10)
    (htru : truthy bd.primary_isbn13 = true
      ∨ truthy bd.primary_isbn10 = true) :
    ∃ b, lookupBook db' bd' = some b ∧ b.book_id = id := by
  unfold findOrCreateBook at hrun
  cases hl : lookupBook db bd with
  | some b =>
    rw [hl, htitle] at hrun
    simp only [Except.ok.injEq, Prod.mk.injEq] at hrun
    obtain ⟨hdb', hid⟩ := hrun
    have hbooks : db'.books
        = db.books.map (resolveUpdateFn b.book_id bd t now) := by
      rw [← hdb']
    have hp13 : ((fun (r : BookRow) =>
          r.primary_isbn13 == bd.primary_isbn13)
          ∘ resolveUpdateFn b.book_id bd t now)
        = (fun r => r.primary_isbn13 == bd.primary_isbn13) := by
      funext r
      simp [Function.comp,
        (resolveUpdateFn_preserves b.book_id bd t now r).2.1]
    have hp10 : ((fun (r : BookRow) =>
          r.primary_isbn10 == bd.primary_isbn10)
          ∘ resolveUpdateFn b.book_id bd t now)
        = (fun r => r.primary_isbn10 == bd.primary_isbn10) := by
      funext r
      simp [Function.comp,
        (resolveUpdateFn_preserves b.book_id bd t now r).2.2]
    have hmap13 : db'.books.find?
          (fun r => r.primary_isbn13 == bd.primary_isbn13)
        = Option.map (resolveUpdateFn b.book_id bd t now)
            (db.books.find?
              (fun r => r.primary_isbn13 == bd.primary_isbn13)) := by
      rw [hbooks, List.find?_map, hp13]
    have hmap10 : db'.books.find?
          (fun r => r.primary_isbn10 == bd.primary_isbn10)
        = Option.map (resolveUpdateFn b.book_id bd t now)
            (db.books.find?
              (fun r => r.primary_isbn10 == bd.primary_isbn10)) := by
      rw [hbooks, List.find?_map, hp10]
    rw [lookupBook, Option.or_eq_some] at hl
    refine ⟨resolveUpdateFn b.book_id bd t now b, ?_,
      by rw [(resolveUpdateFn_preserves b.book_id bd t now b).1, hid]⟩
    unfold lookupBook
    rw [h13, h10]
    rcases hl with h | ⟨hn, hs⟩
    · by_cases t13 : truthy bd.primary_isbn13
      · rw [if_pos t13] at h ⊢
        rw [hmap13, h]
        rfl
      · rw [if_neg t13] at h
        exact absurd h (by simp)
    · by_cases t10 : truthy bd.primary_isbn10
      · rw [if_pos t10] at hs ⊢
        have harm1 : (if truthy bd.primary_isbn13 then
            db'.books.find?
              (fun r => r.primary_isbn13 == bd.primary_isbn13)
          else none) = none := by
          by_cases t13 : truthy bd.primary_isbn13
          · rw [if_pos t13]
            rw [if_pos t13] at hn
            rw [hmap13, hn]
            rfl
          · rw [if_neg t13]
        rw [harm1, hmap10, hs]
        rfl
      · rw [if_neg t10] at hs
        exact absurd hs (by simp)
  | none =>
    rw [hl, htitle] at hrun
    simp only [Except.ok.injEq, Prod.mk.injEq] at hrun
    obtain ⟨hdb', hid⟩ := hrun
    have hbooks : db'.books
        = db.books ++ [newBookRow db bd t now] := by
      rw [← hdb', insertIsbns_eq]
    obtain ⟨harm13, harm10⟩ := (lookupBook_eq_none_iff db bd).mp hl
    have hid' : (newBookRow db bd t now).book_id = id := by
      rw [← hid]
    refine ⟨newBookRow db bd t now, ?_, hid'⟩
    unfold lookupBook
    rw [h13, h10]
    by_cases t13 : truthy bd.primary_isbn13
    · rw [if_pos t13] at harm13 ⊢
      rw [hbooks, List.find?_append, harm13]
      have hone : List.find?
          (fun r => r.primary_isbn13 == bd.primary_isbn13)
          [newBookRow db bd t now]
          = some (newBookRow db bd t now) := by
        simp [List.find?, newBookRow]
      rw [hone]
      rfl
    · rcases htru with t13' | t10
      · exact absurd t13' t13
      · rw [if_neg t13]
        rw [if_pos t10] at harm10 ⊢
        rw [hbooks, List.find?_append, harm10]
        have hone : List.find?
            (fun r => r.primary_isbn10 == bd.primary_isbn10)
            [newBookRow db bd t now]
            = some (newBookRow db bd t now) := by
          simp [List.find?, newBookRow]
        rw [hone]
        rfl

/-- Closed form of the UPDATE branch of findOrCreateBook. -/
theorem findOrCreateBook_update (db : DB) (bd : BookData)
    (now t : String) (b : BookRow)
    (htitle : bd.title = some t)
    (hl : lookupBook db bd = some b) :
    findOrCreateBook db bd now =
      .ok ({ db with
             books := db.books.map (resolveUpdateFn b.book_id bd t now) },
           b.book_id) := by
  rw [findOrCreateBook, hl, htitle]

/-- Closed form of the INSERT branch of findOrCreateBook: a fresh
books row, one isbns row per alias, and the advanced counters. -/
theorem findOrCreateBook_create (db : DB) (bd : BookData)
    (now t : String)
    (htitle : bd.title = some t)
    (hl : lookupBook db bd = none) :
    findOrCreateBook db bd now =
      .ok ({ db with
             books := db.books ++ [newBookRow db bd t now],
             isbns := db.isbns ++
               isbnRowsFrom db.next_isbn_id db.next_book_id bd.isbns,
             next_book_id := db.next_book_id + 1,
             next_isbn_id := db.next_isbn_id + bd.isbns.length },
           db.next_book_id) := by
  rw [findOrCreateBook, hl, htitle]
  simp only [insertIsbns_eq]
  rfl

/-- A record with two falsy identifier fields always misses. -/
theorem lookupBook_identifierless (db : DB) (bd : BookData)
    (h13 : truthy bd.primary_isbn13 = false)
    (h10 : truthy bd.primary_isbn10 = false) :
    lookupBook db bd = none := by
  simp [lookupBook, h13, h10]

/-- Claim C8: the resolver probes by primary_isbn13 when present,
else by primary_isbn10 when present; a hit overwrites every
descriptive field with the incoming values and stamps updated_date
(via overwriteBook inside resolveUpdateFn), returning the found row's
id with no new rows; a miss inserts one fresh books row plus one isbns
row per alias; and a record re-resolved with the same identifier
values returns the same book id as the prior run regardless of its
other fields. -/
theorem c8_book_identity_resolution :
    (∀ (db : DB) (bd : BookData) (now t : String) (b : BookRow),
      bd.title = some t →
      truthy bd.primary_isbn13 = true →
      db.books.find?
        (fun r => r.primary_isbn13 == bd.primary_isbn13) = some b →
      findOrCreateBook db bd now =
        .ok ({ db with
               books := db.books.map
                 (resolveUpdateFn b.book_id bd t now) },
             b.book_id))
    ∧ (∀ (db : DB) (bd : BookData) (now t : String) (b : BookRow),
      bd.title = some t →
      truthy bd.primary_isbn13 = false →
      truthy bd.primary_isbn10 = true →
      db.books.find?
        (fun r => r.primary_isbn10 == bd.primary_isbn10) = some b →
      findOrCreateBook db bd now =
        .ok ({ db with
               books := db.books.map
                 (resolveUpdateFn b.book_id bd t now) },
             b.book_id))
    ∧ (∀ (db : DB) (bd : BookData) (now t : String),
      bd.title = some t →
      lookupBook db bd = none →
      findOrCreateBook db bd now =
        .ok ({ db with
               books := db.books ++ [newBookRow db bd t now],
               isbns := db.isbns ++
                 isbnRowsFrom db.next_isbn_id db.next_book_id bd.isbns,
               next_book_id := db.next_book_id + 1,
               next_isbn_id := db.next_isbn_id + bd.isbns.length },
             db.next_book_id))
    ∧ (∀ (db db1 db2 : DB) (bd1 bd2 : BookData)
        (now1 now2 t1 t2 : String) (id1 id2 : Nat),
      bd1.title = some t1 → bd2.title = some t2 →
      (truthy bd1.primary_isbn13 = true
        ∨ truthy bd1.primary_isbn10 = true) →
      bd2.primary_isbn13 = bd1.primary_isbn13 →
      bd2.primary_isbn10 = bd1.primary_isbn10 →
      findOrCreateBook db bd1 now1 = .ok (db1, id1) →
      findOrCreateBook db1 bd2 now2 = .ok (db2, id2) →
      id2 = id1) := by
  refine ⟨?_, ?_, ?_, ?_⟩
  · intro db bd now t b htitle h13 hf
    refine findOrCreateBook_update db bd now t b htitle ?_
    rw [lookupBook, if_pos h13, hf]
    rfl
  · intro db bd now t b htitle h13 h10 hf
    refine findOrCreateBook_update db bd now t b htitle ?_
    rw [lookupBook, if_pos h10, hf]
    simp [h13]
  · intro db bd now t htitle hl
    exact findOrCreateBook_create db bd now t htitle hl
  · intro db db1 db2 bd1 bd2 now1 now2 t1 t2 id1 id2 ht1 ht2 htru
      h13 h10 hr1 hr2
    obtain ⟨b, hlb, hbid⟩ := lookupBook_after_resolve db db1 bd1 bd2
      now1 t1 id1 ht1 hr1 h13 h10 htru
    rw [findOrCreateBook_update db1 bd2 now2 t2 b ht2 hlb] at hr2
    simp only [Except.ok.injEq, Prod.mk.injEq] at hr2
    rw [← hr2.2, hbid]

/-- A stored books row used by the resolution witnesses. -/
def wBookRow : BookRow :=
  { book_id := 1, primary_isbn13 := some "9781476730772",
    primary_isbn10 := some "1476730776", title := "Old Title",
    author := some "A", publisher := none, book_description := none,
    price := none, book_image := none, book_image_width := none,
    book_image_height := none, amazon_product_url := none,
    book_review_link := none, created_date := "T0",
    updated_date := "T0" }

/-- A store already holding wBookRow. -/
def wBookDB : DB :=
  { emptyDB with books := [wBookRow], next_book_id := 2 }

/-- A re-observation of the same work with a changed title. -/
def wBookData : BookData :=
  { primary_isbn13 := some "9781476730772", title := some "New Title" }

/-- Witness for claim C8: resolving the identifier 9781476730772
against a store that already holds it returns the stored id 1 and
rewrites the descriptive fields in place. -/
theorem c8_book_identity_resolution_witness :
    findOrCreateBook wBookDB wBookData "T1" =
      .ok ({ wBookDB with
             books := wBookDB.books.map
               (resolveUpdateFn 1 wBookData "New Title" "T1") },
           1) :=
  c8_book_identity_resolution.1 wBookDB wBookData "T1" "New Title"
    wBookRow rfl rfl (by decide)

/-- Claim C9: a record with both identifier fields falsy always takes
the not-found branch, so ingesting it twice creates two distinct
books rows with distinct ids — duplication, not deduplication. -/
theorem c9_identifierless_records_duplicate
    (db : DB) (bd1 bd2 : BookData) (now1 now2 t1 t2 : String)
    (ht1 : bd1.title = some t1) (ht2 : bd2.title = some t2)
    (h131 : truthy bd1.primary_isbn13 = false)
    (h101 : truthy bd1.primary_isbn10 = false)
    (h132 : truthy bd2.primary_isbn13 = false)
    (h102 : truthy bd2.primary_isbn10 = false) :
    ∃ db1 db2 id1 id2,
      findOrCreateBook db bd1 now1 = .ok (db1, id1)
      ∧ findOrCreateBook db1 bd2 now2 = .ok (db2, id2)
      ∧ id1 = db.next_book_id ∧ id2 = db.next_book_id + 1
      ∧ id1 ≠ id2
      ∧ db1.books = db.books ++ [newBookRow db bd1 t1 now1]
      ∧ db2.books = db1.books ++ [newBookRow db1 bd2 t2 now2] := by
  have hl1 : lookupBook db bd1 = none :=
    lookupBook_identifierless db bd1 h131 h101
  have hr1 := findOrCreateBook_create db bd1 now1 t1 ht1 hl1
  set db1 : DB :=
    { db with
      books := db.books ++ [newBookRow db bd1 t1 now1],
      isbns := db.isbns ++
        isbnRowsFrom db.next_isbn_id db.next_book_id bd1.isbns,
      next_book_id := db.next_book_id + 1,
      next_isbn_id := db.next_isbn_id + bd1.isbns.length } with hdb1
  have hl2 : lookupBook db1 bd2 = none :=
    lookupBook_identifierless db1 bd2 h132 h102
  have hr2 := findOrCreateBook_create db1 bd2 now2 t2 ht2 hl2
  refine ⟨db1, _, db.next_book_id, db1.next_book_id,
    hr1, hr2, rfl, rfl, by simp only [hdb1]; omega, rfl, rfl⟩

/-- Witness for claim C9: ingesting the bare record with only a title
twice into the empty store yields books rows 1 and 2. -/
theorem c9_identifierless_records_duplicate_witness :
    ∃ db1 db2 id1 id2,
      findOrCreateBook emptyDB { title := some "X" } "T1"
        = .ok (db1, id1)
      ∧ findOrCreateBook db1 { title := some "X" } "T2"
        = .ok (db2, id2)
      ∧ id1 = emptyDB.next_book_id ∧ id2 = emptyDB.next_book_id + 1
      ∧ id1 ≠ id2
      ∧ db1.books = emptyDB.books
          ++ [newBookRow emptyDB { title := some "X" } "X" "T1"]
      ∧ db2.books = db1.books
          ++ [newBookRow db1 { title := some "X" } "X" "T2"] :=
  c9_identifierless_records_duplicate emptyDB
    { title := some "X" } { title := some "X" } "T1" "T2" "X" "X"
    rfl rfl rfl rfl rfl rfl

/-- Whether the store holds a ranking for the given triple. -/
def hasTriple (db : DB) (listId bookId : Nat) (pd : Date) : Bool :=
  db.rankings.any (sameTriple listId bookId pd)

/-- Unfolding of the triple test. -/
theorem sameTriple_eq_true_iff (li bi : Nat) (p : Date)
    (r : RankingRow) :
    sameTriple li bi p r = true ↔
      r.list_id = li ∧ r.book_id = bi ∧ r.published_date = p := by
  simp [sameTriple, Bool.and_eq_true, and_assoc]

/-- findOrCreateBook only touches the books and isbns tables. -/
theorem findOrCreateBook_frame (db dbr : DB) (bd : BookData)
    (now : String) (id : Nat)
    (h : findOrCreateBook db bd now = .ok (dbr, id)) :
    dbr.lists = db.lists ∧ dbr.rankings = db.rankings
      ∧ dbr.sync_log = db.sync_log
      ∧ dbr.next_ranking_id = db.next_ranking_id
      ∧ dbr.next_sync_id = db.next_sync_id := by
  cases hl : lookupBook db bd with
  | some b =>
    cases htitle : bd.title with
    | none =>
      rw [findOrCreateBook, hl, htitle] at h
      exact absurd h (by simp)
    | some t =>
      rw [findOrCreateBook_update db bd now t b htitle hl] at h
      simp only [Except.ok.injEq, Prod.mk.injEq] at h
      rw [← h.1]
      exact ⟨rfl, rfl, rfl, rfl, rfl⟩
  | none =>
    cases htitle : bd.title with
    | none =>
      rw [findOrCreateBook, hl, htitle] at h
      exact absurd h (by simp)
    | some t =>
      rw [findOrCreateBook_create db bd now t htitle hl] at h
      simp only [Except.ok.injEq, Prod.mk.injEq] at h
      rw [← h.1]
      exact ⟨rfl, rfl, rfl, rfl, rfl⟩

/-- A ranking triple present before an INSERT OR REPLACE is still
present afterwards (either untouched, or re-inserted as the fresh
replacement row). -/
theorem hasTriple_insertOrReplaceRanking (db : DB)
    (listId bookId li bi : Nat) (pd p bsd : Date) (bd : BookData)
    (h : hasTriple db li bi p = true) :
    hasTriple (insertOrReplaceRanking db listId bookId pd bsd bd)
      li bi p = true := by
  unfold hasTriple at h
  rw [List.any_eq_true] at h
  obtain ⟨r, hr, hrt⟩ := h
  rw [sameTriple_eq_true_iff] at hrt
  unfold hasTriple insertOrReplaceRanking
  rw [List.any_eq_true]
  by_cases heq : li = listId ∧ bi = bookId ∧ p = pd
  · refine ⟨newRankingRow db listId bookId pd bsd bd,
      List.mem_append_right _ (List.mem_singleton.mpr rfl), ?_⟩
    rw [sameTriple_eq_true_iff]
    exact ⟨(by simp [newRankingRow, heq.1]),
      (by simp [newRankingRow, heq.2.1]),
      (by simp [newRankingRow, heq.2.2])⟩
  · refine ⟨r, List.mem_append_left _ ?_, ?_⟩
    · rw [List.mem_filter]
      refine ⟨hr, ?_⟩
      simp only [Bool.not_eq_eq_eq_not, Bool.not_true]
      rw [Bool.eq_false_iff]
      intro hcon
      rw [sameTriple_eq_true_iff] at hcon
      obtain ⟨hc1, hc2, hc3⟩ := hcon
      obtain ⟨hr1, hr2, hr3⟩ := hrt
      refine heq ⟨?_, ?_, ?_⟩
      · rw [← hr1]
        exact hc1
      · rw [← hr2]
        exact hc2
      · rw [← hr3]
        exact hc3
    · rw [sameTriple_eq_true_iff]
      exact hrt

/-- Running the body of the save transaction: counters equal the
number of processed records, the lists and sync_log tables and their
counters are untouched, and every triple present before remains. -/
theorem saveDataLoop_ok (listId : Nat) (pd bsd : Date) (now : String) :
    ∀ (books : List BookData) (db dbr : DB) (ba ra : Nat),
      saveDataLoop db listId pd bsd now books = .ok (dbr, ba, ra) →
      ba = books.length ∧ ra = books.length
      ∧ dbr.lists = db.lists ∧ dbr.sync_log = db.sync_log
      ∧ dbr.next_sync_id = db.next_sync_id
      ∧ (∀ li bi p, hasTriple db li bi p = true →
          hasTriple dbr li bi p = true) := by
  intro books
  induction books with
  | nil =>
    intro db dbr ba ra h
    rw [saveDataLoop] at h
    simp only [Except.ok.injEq, Prod.mk.injEq] at h
    obtain ⟨h1, h2, h3⟩ := h
    subst h1
    subst h2
    subst h3
    exact ⟨rfl, rfl, rfl, rfl, rfl, fun li bi p ht => ht⟩
  | cons bd rest ih =>
    intro db dbr ba ra h
    rw [saveDataLoop] at h
    cases hf : findOrCreateBook db bd now with
    | error e =>
      rw [hf] at h
      exact absurd h (by simp)
    | ok pr =>
      obtain ⟨db1, bookId⟩ := pr
      rw [hf] at h
      dsimp only at h
      cases hrec : saveDataLoop
          (insertOrReplaceRanking db1 listId bookId pd bsd bd)
          listId pd bsd now rest with
      | error e =>
        rw [hrec] at h
        exact absurd h (by simp)
      | ok q =>
        obtain ⟨db3, ba1, ra1⟩ := q
        rw [hrec] at h
        simp only [Except.ok.injEq, Prod.mk.injEq] at h
        obtain ⟨hdb, hba, hra⟩ := h
        subst hdb
        obtain ⟨hba1, hra1, hl3, hs3, hn3, ht3⟩ := ih _ _ _ _ hrec
        obtain ⟨hfl, hfr, hfs, hfn, hfn2⟩ :=
          findOrCreateBook_frame db db1 bd now bookId hf
        refine ⟨by simp [← hba, hba1], by simp [← hra, hra1],
          ?_, ?_, ?_, ?_⟩
        · rw [hl3]
          exact hfl
        · rw [hs3]
          exact hfs
        · rw [hn3]
          exact hfn2
        · intro li bi p ht
          refine ht3 li bi p ?_
          refine hasTriple_insertOrReplaceRanking db1 listId bookId
            li bi pd p bsd bd ?_
          unfold hasTriple at ht ⊢
          rw [hfr]
          exact ht

/-- The ranking written for the fresh replacement row always carries
the upsert's triple. -/
theorem sameTriple_newRankingRow (db : DB) (listId bookId : Nat)
    (pd bsd : Date) (bd : BookData) :
    sameTriple listId bookId pd
      (newRankingRow db listId bookId pd bsd bd) = true := by
  simp [sameTriple, newRankingRow]

/-- A store already holding the ranking (list 1, book 1, 2024-01-01),
as left by a previous ingestion of that date. -/
def c1db : DB :=
  { emptyDB with
    lists := [{ list_id := 1, list_name_encoded := "hardcover-fiction",
                display_name := "Hardcover Fiction",
                list_name := "Hardcover Fiction",
                oldest_published_date := 19723,
                newest_published_date := 19744, updated := "WEEKLY" }],
    books := [wBookRow],
    rankings := [{ ranking_id := 1, list_id := 1, book_id := 1,
                   published_date := 19723, bestsellers_date := 19718,
                   rank := 1, rank_last_week := none,
                   weeks_on_list := none, asterisk := 0, dagger := 0 }],
    next_list_id := 2, next_book_id := 2, next_ranking_id := 2 }

/-- Claim C1, counterexample: re-ingesting the identical snapshot for
an already-stored (list, book, publish date) triple does NOT leave the
existing ranking row unchanged and IS included in the rankings-added
count.  The INSERT OR REPLACE deletes row 1 and inserts a fresh row
with ranking_id 2, and the success sync_log row reports
records_added 1 — the duplicate was counted as an insertion, not
separately. -/
theorem c1_duplicate_ranking_write_counterexample :
    ((saveData c1db "init" 1 "hardcover-fiction" [wBookData]
        19723 19718 "T1").toOption.map
      (fun x => (x.1.rankings.map (fun r => r.ranking_id), x.2.2,
        x.1.sync_log.map (fun s => (s.records_added, s.status)))))
      = some ([2], 1, [(1, "success")])
    ∧ c1db.rankings.map (fun r => r.ranking_id) = [1] := by
  exact ⟨by decide, by decide⟩

/-- Claim C1, amended: a repeated ranking write for a stored triple is
non-fatal and the store still ends with exactly one row per triple,
but the write replaces the existing row with a fresh row (new
AUTOINCREMENT ranking_id, fields overwritten with the incoming
observation) instead of leaving it unchanged, and the attempt is
included in the rankings-added count exactly like a first insertion
(the count recorded in the success sync row equals the number of books
in the snapshot, duplicates included). -/
theorem c1_duplicate_ranking_upsert_amended :
    (∀ (db : DB) (listId bookId : Nat) (pd bsd : Date)
        (bd : BookData),
      (insertOrReplaceRanking db listId bookId pd bsd bd).rankings
        = db.rankings.filter
            (fun r => !(sameTriple listId bookId pd r))
          ++ [newRankingRow db listId bookId pd bsd bd])
    ∧ (∀ (db : DB) (listId bookId : Nat) (pd bsd : Date)
        (bd : BookData),
      ((insertOrReplaceRanking db listId bookId pd bsd bd).rankings.filter
        (sameTriple listId bookId pd)).length = 1)
    ∧ (∀ (db dbr : DB) (syncType : String) (listId : Nat)
        (listName : String) (books : List BookData) (pd bsd : Date)
        (now : String) (ba ra : Nat),
      saveData db syncType listId listName books pd bsd now
        = .ok (dbr, ba, ra) →
      ra = books.length
      ∧ dbr.sync_log = db.sync_log ++
          [{ sync_id := db.next_sync_id, sync_type := syncType,
             sync_list_name := some listName, sync_date := now,
             published_date := some pd,
             records_added := books.length,
             status := "success", error_message := none }]) := by
  refine ⟨fun db listId bookId pd bsd bd => rfl, ?_, ?_⟩
  · intro db listId bookId pd bsd bd
    show ((db.rankings.filter
        (fun r => !(sameTriple listId bookId pd r))
      ++ [newRankingRow db listId bookId pd bsd bd]).filter
        (sameTriple listId bookId pd)).length = 1
    rw [List.filter_append]
    have hA : (db.rankings.filter
        (fun r => !(sameTriple listId bookId pd r))).filter
          (sameTriple listId bookId pd) = [] := by
      rw [List.filter_filter]
      simp
    rw [hA]
    simp [sameTriple_newRankingRow]
  · intro db dbr syncType listId listName books pd bsd now ba ra h
    unfold saveData at h
    cases hloop : saveDataLoop db listId pd bsd now books with
    | error e =>
      rw [hloop] at h
      exact absurd h (by simp)
    | ok q =>
      obtain ⟨db1, ba1, ra1⟩ := q
      rw [hloop] at h
      simp only [Except.ok.injEq, Prod.mk.injEq] at h
      obtain ⟨hdbr, hba, hra⟩ := h
      obtain ⟨hb1, hr1, _, hs1, hn1, _⟩ :=
        saveDataLoop_ok listId pd bsd now books db db1 ba1 ra1 hloop
      constructor
      · rw [← hra, hr1]
      · rw [← hdbr]
        show db1.sync_log ++ _ = _
        rw [hs1, hn1, hr1]

/-- The store after re-ingesting the stored triple of c1db: the
descriptive book fields rewritten, ranking row 1 replaced by row 2,
and one success sync row counting the duplicate as added. -/
def c1dbAfter : DB :=
  { lists := c1db.lists,
    books := [{ book_id := 1, primary_isbn13 := some "9781476730772",
                primary_isbn10 := some "1476730776",
                title := "New Title", author := none,
                publisher := none, book_description := none,
                price := none, book_image := none,
                book_image_width := none, book_image_height := none,
                amazon_product_url := none, book_review_link := none,
                created_date := "T0", updated_date := "T1" }],
    isbns := [],
    rankings := [{ ranking_id := 2, list_id := 1, book_id := 1,
                   published_date := 19723, bestsellers_date := 19718,
                   rank := 1, rank_last_week := none,
                   weeks_on_list := none, asterisk := 0, dagger := 0 }],
    sync_log := [{ sync_id := 1, sync_type := "init",
                   sync_list_name := some "hardcover-fiction",
                   sync_date := "T1", published_date := some 19723,
                   records_added := 1, status := "success",
                   error_message := none }],
    next_list_id := 2, next_book_id := 2, next_isbn_id := 1,
    next_ranking_id := 3, next_sync_id := 2 }

/-- Witness for the amended claim C1: the concrete duplicate
re-ingestion run, with its rankings-added count of 1 and its appended
success record counting the duplicate. -/
theorem c1_duplicate_ranking_upsert_amended_witness :
    saveData c1db "init" 1 "hardcover-fiction" [wBookData]
      19723 19718 "T1" = .ok (c1dbAfter, 1, 1)
    ∧ (1 : Nat) = ([wBookData] : List BookData).length
    ∧ c1dbAfter.sync_log = c1db.sync_log ++
        [{ sync_id := c1db.next_sync_id, sync_type := "init",
           sync_list_name := some "hardcover-fiction",
           sync_date := "T1", published_date := some 19723,
           records_added := ([wBookData] : List BookData).length,
           status := "success", error_message := none }] :=
  have hrun : saveData c1db "init" 1 "hardcover-fiction" [wBookData]
      19723 19718 "T1" = .ok (c1dbAfter, 1, 1) := by rfl
  ⟨hrun,
   (c1_duplicate_ranking_upsert_amended.2.2 c1db c1dbAfter "init" 1
     "hardcover-fiction" [wBookData] 19723 19718 "T1" 1 1 hrun).1,
   (c1_duplicate_ranking_upsert_amended.2.2 c1db c1dbAfter "init" 1
     "hardcover-fiction" [wBookData] 19723 19718 "T1" 1 1 hrun).2⟩

/-- Number of lists rows carrying the given encoded name. -/
def countEnc (ls : List ListRow) (n : String) : Nat :=
  (ls.filter (fun r => r.list_name_encoded == n)).length

/-- One INSERT OR REPLACE leaves exactly one row under the written
name and the count under every other name unchanged. -/
theorem countEnc_insertOrReplaceList (db : DB) (d : ListDescriptor)
    (n : String) :
    countEnc (insertOrReplaceList db d).lists n =
      if n = d.list_name_encoded then 1 else countEnc db.lists n := by
  unfold countEnc insertOrReplaceList
  rw [List.filter_append, List.length_append, List.filter_filter]
  by_cases h : n = d.list_name_encoded
  · rw [if_pos h, h]
    have h1 : db.lists.filter
        (fun r => (r.list_name_encoded == d.list_name_encoded)
          && (r.list_name_encoded != d.list_name_encoded)) = [] := by
      simp [bne]
    rw [h1]
    simp
  · rw [if_neg h]
    have h1 : (fun (r : ListRow) => (r.list_name_encoded == n)
          && (r.list_name_encoded != d.list_name_encoded))
        = (fun r => r.list_name_encoded == n) := by
      funext r
      by_cases hr : r.list_name_encoded = n
      · rw [hr]
        simp [bne, beq_iff_eq, h]
      · simp [beq_iff_eq, hr]
    rw [h1]
    simp [beq_iff_eq, Ne.symm h]

/-- After a catalog sync, every name written by some descriptor is
carried by exactly one lists row. -/
theorem saveLists_countEnc (ds : List ListDescriptor) :
    ∀ (db : DB) (n : String),
      countEnc (saveLists db ds).lists n =
        if (ds.map (fun d => d.list_name_encoded)).contains n then 1
        else countEnc db.lists n := by
  induction ds with
  | nil =>
    intro db n
    simp [saveLists]
  | cons d rest ih =>
    intro db n
    show countEnc (saveLists (insertOrReplaceList db d) rest).lists n = _
    rw [ih (insertOrReplaceList db d) n, countEnc_insertOrReplaceList]
    rw [List.map_cons, List.contains_cons]
    by_cases hrest :
        (rest.map (fun d => d.list_name_encoded)).contains n = true
    · rw [if_pos hrest, hrest, Bool.or_true, if_pos rfl]
    · rw [if_neg hrest]
      rw [Bool.not_eq_true] at hrest
      rw [hrest, Bool.or_false]
      by_cases hd : n = d.list_name_encoded
      · rw [if_pos hd, if_pos (by rw [hd, beq_self_eq_true])]
      · rw [if_neg hd,
          if_neg (by simp [beq_iff_eq]; exact hd)]

/-- Rows whose name no incoming descriptor carries survive the sync
unchanged. -/
theorem saveLists_preserves (ds : List ListDescriptor) :
    ∀ (db : DB) (r : ListRow), r ∈ db.lists →
      (∀ d ∈ ds, d.list_name_encoded ≠ r.list_name_encoded) →
      r ∈ (saveLists db ds).lists := by
  induction ds with
  | nil =>
    intro db r hr _
    exact hr
  | cons d rest ih =>
    intro db r hr hn
    show r ∈ (saveLists (insertOrReplaceList db d) rest).lists
    refine ih (insertOrReplaceList db d) r ?_
      (fun d' hd' => hn d' (List.mem_cons_of_mem d hd'))
    show r ∈ db.lists.filter _ ++ _
    refine List.mem_append_left _ ?_
    rw [List.mem_filter]
    refine ⟨hr, ?_⟩
    have := hn d (List.mem_cons_self d rest)
    simp [bne]
    exact fun hc => this (by rw [hc])

/-- The catalog sync never touches the rankings table. -/
theorem saveLists_rankings (ds : List ListDescriptor) :
    ∀ db : DB, (saveLists db ds).rankings = db.rankings := by
  induction ds with
  | nil =>
    intro db
    rfl
  | cons d rest ih =>
    intro db
    exact ih (insertOrReplaceList db d)

/-- Every lists row after a sync is either an untouched old row or a
freshly inserted row whose id is at least the pre-sync counter. -/
theorem saveLists_mem_lists (ds : List ListDescriptor) :
    ∀ (db : DB) (r : ListRow), r ∈ (saveLists db ds).lists →
      r ∈ db.lists ∨ db.next_list_id ≤ r.list_id := by
  induction ds with
  | nil =>
    intro db r hr
    exact Or.inl hr
  | cons d rest ih =>
    intro db r hr
    rcases ih (insertOrReplaceList db d) r hr with hmem | hge
    · rcases List.mem_append.mp hmem with hold | hnew
      · exact Or.inl (List.mem_filter.mp hold).1
      · right
        rw [List.mem_singleton.mp hnew]
    · right
      calc db.next_list_id ≤ db.next_list_id + 1 := Nat.le_succ _
        _ ≤ r.list_id := hge

/-- A store with one already-synced list and one ranking ingested
under its list_id 1. -/
def c2db : DB :=
  { emptyDB with
    lists := [{ list_id := 1, list_name_encoded := "hardcover-fiction",
                display_name := "Hardcover Fiction",
                list_name := "Hardcover Fiction",
                oldest_published_date := 19723,
                newest_published_date := 19744, updated := "W" }],
    rankings := [{ ranking_id := 1, list_id := 1, book_id := 1,
                   published_date := 19723, bestsellers_date := 19718,
                   rank := 1, rank_last_week := none,
                   weeks_on_list := none, asterisk := 0, dagger := 0 }],
    next_list_id := 2, next_book_id := 2, next_ranking_id := 2 }

/-- The same list as re-announced by the remote catalog. -/
def c2desc : ListDescriptor :=
  { list_name_encoded := "hardcover-fiction",
    display_name := "Hardcover Fiction",
    list_name := "Hardcover Fiction",
    oldest_published_date := 19723, newest_published_date := 19751,
    updated := "W" }

/-- Claim C2, counterexample: re-syncing a list already in the store
REPLACEs its row under a fresh list_id (2), while the previously
ingested ranking still references the vanished list_id 1 — after the
sync no lists row matches the ranking's list_id, so referential
integrity with already-ingested Rankings is broken, not kept. -/
theorem c2_list_resync_breaks_reference_counterexample :
    ((saveLists c2db [c2desc]).lists.map (fun r => r.list_id)) = [2]
    ∧ ((saveLists c2db [c2desc]).rankings.map (fun r => r.list_id))
        = [1]
    ∧ (∀ l ∈ (saveLists c2db [c2desc]).lists,
        ∀ k ∈ (saveLists c2db [c2desc]).rankings,
        l.list_id ≠ k.list_id) := by
  refine ⟨by decide, by decide, by decide⟩

/-- Claim C2, amended: the catalog sync leaves exactly one lists row
per incoming descriptor keyed by the encoded name, never deletes a
row whose name the incoming catalog does not carry (stale lists stay,
unchanged), and never removes Ranking rows; but a descriptor matching
an existing row deletes and re-inserts that row under a fresh
list_id (at least the pre-sync counter), so Rankings ingested under
the old id are left referencing a list_id that no longer exists. -/
theorem c2_list_catalog_sync_amended :
    (∀ (db : DB) (ds : List ListDescriptor) (d : ListDescriptor),
      d ∈ ds →
      countEnc (saveLists db ds).lists d.list_name_encoded = 1)
    ∧ (∀ (db : DB) (ds : List ListDescriptor) (r : ListRow),
      r ∈ db.lists →
      (∀ d ∈ ds, d.list_name_encoded ≠ r.list_name_encoded) →
      r ∈ (saveLists db ds).lists)
    ∧ (∀ (db : DB) (ds : List ListDescriptor),
      (saveLists db ds).rankings = db.rankings)
    ∧ (∀ (db : DB) (ds : List ListDescriptor) (r : ListRow),
      r ∈ (saveLists db ds).lists →
      r ∈ db.lists ∨ db.next_list_id ≤ r.list_id) := by
  refine ⟨?_, fun db ds => saveLists_preserves ds db,
    fun db ds => saveLists_rankings ds db,
    fun db ds => saveLists_mem_lists ds db⟩
  intro db ds d hd
  rw [saveLists_countEnc ds db d.list_name_encoded]
  have : (ds.map (fun d => d.list_name_encoded)).contains
      d.list_name_encoded = true := by
    have hmem : d.list_name_encoded
        ∈ ds.map (fun d => d.list_name_encoded) :=
      List.mem_map_of_mem _ hd
    exact List.elem_eq_true_of_mem hmem
  rw [if_pos this]

/-- Witness for the amended claim C2 at the concrete store: exactly
one row under the re-synced name, and the rankings table untouched. -/
theorem c2_list_catalog_sync_amended_witness :
    countEnc (saveLists c2db [c2desc]).lists "hardcover-fiction" = 1
    ∧ (saveLists c2db [c2desc]).rankings = c2db.rankings :=
  ⟨c2_list_catalog_sync_amended.1 c2db [c2desc] c2desc (by decide),
   c2_list_catalog_sync_amended.2.2.1 c2db [c2desc]⟩

/-- A failing remote response always turns one backfill checkpoint
into exactly one appended failure record (either the quota error, when
the counter is exhausted, or the HTTP error). -/
theorem processInitDate_fail_response (listId : Nat)
    (listName : String) (responses : Date → HttpResult Envelope)
    (now : String) (st : InitState) (date : Date) (s : Nat)
    (t : String) (h : responses date = HttpResult.failure s t) :
    ∃ msg rc,
      processInitDate listId listName responses now st date
        = { db := failRecord st.db "init" listName now (some date) msg,
            requestCount := rc } := by
  unfold processInitDate rateLimitedFetchInit
  rw [h]
  by_cases hq : st.requestCount ≥ MAX_REQUESTS_PER_DAY
  · rw [if_pos hq]
    exact ⟨quotaMsg, st.requestCount, rfl⟩
  · rw [if_neg hq]
    exact ⟨httpErrorMsg s t, st.requestCount + 1, rfl⟩

/-- Claim C5: a backfill checkpoint whose fetch throws appends exactly
one failure sync_log row carrying the error description and the
checkpoint date, writes no ranking rows, and, even if every remaining
checkpoint also fails, each one is still processed (one failure row
per checkpoint, rankings untouched) — failures never abort the rest
of the grid. -/
theorem c5_backfill_checkpoint_fetch_failure :
    (∀ (st : InitState) (listId : Nat) (listName : String)
        (responses : Date → HttpResult Envelope) (now : String)
        (date : Date) (rc : Nat) (msg : String),
      rateLimitedFetchInit st.requestCount (responses date)
        = (rc, .error msg) →
      (processInitDate listId listName responses now st date).db.sync_log
        = st.db.sync_log ++
          [{ sync_id := st.db.next_sync_id, sync_type := "init",
             sync_list_name := some listName, sync_date := now,
             published_date := some date, records_added := 0,
             status := "error", error_message := some msg }]
      ∧ (processInitDate listId listName responses now st
          date).db.rankings = st.db.rankings)
    ∧ (∀ (listId : Nat) (listName : String)
        (responses : Date → HttpResult Envelope) (now : String)
        (dates : List Date) (st : InitState),
      (∀ d ∈ dates, ∃ s t, responses d = HttpResult.failure s t) →
      (processInitDates listId listName responses now st
          dates).db.rankings = st.db.rankings
      ∧ (processInitDates listId listName responses now st
          dates).db.sync_log.length
        = st.db.sync_log.length + dates.length) := by
  constructor
  · intro st listId listName responses now date rc msg h
    unfold processInitDate
    rw [h]
    exact ⟨rfl, rfl⟩
  · intro listId listName responses now dates
    induction dates with
    | nil =>
      intro st _
      exact ⟨rfl, rfl⟩
    | cons d rest ih =>
      intro st hall
      obtain ⟨s, t, hd⟩ := hall d (List.mem_cons_self d rest)
      obtain ⟨msg, rc, hstep⟩ := processInitDate_fail_response listId
        listName responses now st d s t hd
      have hunf : processInitDates listId listName responses now st
            (d :: rest)
          = processInitDates listId listName responses now
              (processInitDate listId listName responses now st d)
              rest := rfl
      rw [hunf, hstep]
      obtain ⟨ihr, ihl⟩ := ih
        { db := failRecord st.db "init" listName now (some d) msg,
          requestCount := rc }
        (fun d' hd' => hall d' (List.mem_cons_of_mem d hd'))
      constructor
      · rw [ihr]
        rfl
      · rw [ihl]
        show (st.db.sync_log ++ [_]).length + rest.length = _
        rw [List.length_append]
        simp
        omega

/-- Witness for claim C5: one concrete checkpoint (2024-01-01) whose
remote call returns HTTP 500 leaves exactly the failure record and no
rankings. -/
theorem c5_backfill_checkpoint_fetch_failure_witness :
    (processInitDate 1 "hardcover-fiction"
        (fun _ => HttpResult.failure 500 "Internal Server Error") "T1"
        { db := c2db, requestCount := 0 } 19723).db.sync_log
      = c2db.sync_log ++
        [{ sync_id := c2db.next_sync_id, sync_type := "init",
           sync_list_name := some "hardcover-fiction",
           sync_date := "T1", published_date := some 19723,
           records_added := 0, status := "error",
           error_message :=
             some (httpErrorMsg 500 "Internal Server Error") }]
    ∧ (processInitDate 1 "hardcover-fiction"
        (fun _ => HttpResult.failure 500 "Internal Server Error") "T1"
        { db := c2db, requestCount := 0 } 19723).db.rankings
      = c2db.rankings :=
  c5_backfill_checkpoint_fetch_failure.1
    { db := c2db, requestCount := 0 } 1 "hardcover-fiction"
    (fun _ => HttpResult.failure 500 "Internal Server Error") "T1"
    19723 1 (httpErrorMsg 500 "Internal Server Error") rfl

/-- Claim C6: when the store already holds a ranking for the list at
the publish date the response reports, the incremental update still
performs the remote call (the call counter advances), and then: with
the force flag clear the attempt ends as a skipped outcome — not a
failure — with the store completely untouched (zero new rankings); and
with the force flag set the skip is bypassed (the outcome is never
skipped). -/
theorem c6_incremental_update_skips_existing_date
    (db : DB) (rc : Nat) (listName : String) (force : Bool)
    (env : Envelope) (res : ResultsBody) (books : List BookData)
    (l : ListRow) (now : String)
    (hfind : db.lists.find?
      (fun x => x.list_name_encoded == listName) = some l)
    (hid : (l.list_id == 0) = false)
    (hres : env.results = some res)
    (hbooks : res.books = some books)
    (hex : countExisting db l.list_id res.published_date > 0) :
    (updateList db rc listName force (HttpResult.success env)
      now).2.1 = rc + 1
    ∧ (force = false →
      updateList db rc listName force (HttpResult.success env) now
        = (db, rc + 1, .skipped res.published_date))
    ∧ (force = true → ∀ pd,
      (updateList db rc listName force (HttpResult.success env)
        now).2.2 ≠ UpdateResult.skipped pd) := by
  have hcond : ∀ b : Bool,
      updateList db rc listName b (HttpResult.success env) now
        = if countExisting db l.list_id res.published_date > 0
            && !b then
          (db, rc + 1, .skipped res.published_date)
        else
          match saveData db "update" l.list_id listName books
              res.published_date res.bestsellers_date now with
          | .ok (db1, ba, ra) =>
            (db1, rc + 1, .updated res.published_date ba ra)
          | .error msg =>
            (failRecord db "update" listName now none msg, rc + 1,
             .failed msg) := by
    intro b
    unfold updateList
    rw [hfind]
    simp only [hid, Bool.false_eq_true, if_false]
    show (match rateLimitedFetchUpdate rc
        (HttpResult.success env) with
      | (rc1, .error msg) =>
        (failRecord db "update" listName now none msg, rc1,
         UpdateResult.failed msg)
      | (rc1, .ok env1) => _) = _
    show (match env.results with
      | none => (db, rc + 1, UpdateResult.noData)
      | some res1 => _) = _
    rw [hres]
    show (match res.books with
      | none => (db, rc + 1, UpdateResult.noData)
      | some books1 => _) = _
    rw [hbooks]
  have hdec : decide
      (countExisting db l.list_id res.published_date > 0) = true :=
    decide_eq_true hex
  refine ⟨?_, ?_, ?_⟩
  · rw [hcond force]
    by_cases hb : (countExisting db l.list_id res.published_date > 0
        && !force) = true
    · rw [if_pos hb]
    · rw [if_neg hb]
      cases hs : saveData db "update" l.list_id listName books
          res.published_date res.bestsellers_date now with
      | ok q =>
        obtain ⟨db1, ba, ra⟩ := q
        rfl
      | error msg =>
        rfl
  · intro hforce
    subst hforce
    have hb : (decide
        (countExisting db l.list_id res.published_date > 0)
        && !false) = true := by
      rw [Bool.not_false, Bool.and_true]
      exact hdec
    rw [hcond false, if_pos hb]
  · intro hforce pd
    subst hforce
    have hb : ¬((decide
        (countExisting db l.list_id res.published_date > 0)
        && !true) = true) := by
      rw [Bool.not_true, Bool.and_false]
      exact Bool.false_ne_true
    rw [hcond true, if_neg hb]
    cases hs : saveData db "update" l.list_id listName books
        res.published_date res.bestsellers_date now with
    | ok q =>
      obtain ⟨db1, ba, ra⟩ := q
      exact fun hcon => nomatch hcon
    | error msg =>
      exact fun hcon => nomatch hcon

/-- The current-week response body used by the skip witness: the same
publish date c1db already holds. -/
def c6res : ResultsBody :=
  { books := some [wBookData], published_date := 19723,
    bestsellers_date := 19718 }

/-- The corresponding response envelope. -/
def c6env : Envelope := { results := some c6res }

/-- The stored lists row of c1db. -/
def c6list : ListRow :=
  { list_id := 1, list_name_encoded := "hardcover-fiction",
    display_name := "Hardcover Fiction",
    list_name := "Hardcover Fiction",
    oldest_published_date := 19723, newest_published_date := 19744,
    updated := "WEEKLY" }

/-- Witness for claim C6: the un-forced update against a store already
holding 2024-01-01 for the list makes the call (counter 0 to 1) and
ends as a skipped outcome with the store untouched. -/
theorem c6_incremental_update_skips_existing_date_witness :
    updateList c1db 0 "hardcover-fiction" false
      (HttpResult.success c6env) "T1" = (c1db, 1, .skipped 19723) :=
  (c6_incremental_update_skips_existing_date c1db 0
    "hardcover-fiction" false c6env c6res [wBookData] c6list "T1"
    (by decide) rfl rfl rfl (by decide)).2.1 rfl

/-- Unfolded form of updateList once the list is found (nonzero id)
and the fetched envelope carries results and books: the duplicate
check decides between the skip and the save transaction. -/
theorem updateList_success_unfold (db : DB) (rc : Nat)
    (listName : String) (b : Bool) (env : Envelope)
    (res : ResultsBody) (books : List BookData) (l : ListRow)
    (now : String)
    (hfind : db.lists.find?
      (fun x => x.list_name_encoded == listName) = some l)
    (hid : (l.list_id == 0) = false)
    (hres : env.results = some res)
    (hbooks : res.books = some books) :
    updateList db rc listName b (HttpResult.success env) now
      = if countExisting db l.list_id res.published_date > 0
          && !b then
        (db, rc + 1, .skipped res.published_date)
      else
        match saveData db "update" l.list_id listName books
            res.published_date res.bestsellers_date now with
        | .ok (db1, ba, ra) =>
          (db1, rc + 1, .updated res.published_date ba ra)
        | .error msg =>
          (failRecord db "update" listName now none msg, rc + 1,
           .failed msg) := by
  unfold updateList
  rw [hfind]
  simp only [hid, Bool.false_eq_true, if_false]
  show (match rateLimitedFetchUpdate rc
      (HttpResult.success env) with
    | (rc1, .error msg) =>
      (failRecord db "update" listName now none msg, rc1,
       UpdateResult.failed msg)
    | (rc1, .ok env1) => _) = _
  show (match env.results with
    | none => (db, rc + 1, UpdateResult.noData)
    | some res1 => _) = _
  rw [hres]
  show (match res.books with
    | none => (db, rc + 1, UpdateResult.noData)
    | some books1 => _) = _
  rw [hbooks]

/-- Claim C10: in both orchestrators the success sync_log row is
written inside the same transaction as the checkpoint's book and
ranking writes, so a checkpoint with a successful fetch is
all-or-nothing: either the transaction body committed — the final
store is the body's store (whose sync_log the body left untouched)
plus exactly the one success record appended by the transaction — or
the body threw, and the final store is the untouched pre-transaction
store plus exactly one failure record written by the catch handler
outside the transaction (no partial book or ranking writes, no
success record). -/
theorem c10_success_record_transactional :
    (∀ (st : InitState) (listId : Nat) (listName : String)
        (responses : Date → HttpResult Envelope) (now : String)
        (date : Date) (rc : Nat) (env : Envelope) (res : ResultsBody)
        (books : List BookData),
      rateLimitedFetchInit st.requestCount (responses date)
        = (rc, .ok env) →
      env.results = some res →
      res.books = some books →
      (∃ db1 ba ra,
        saveDataLoop st.db listId res.published_date
          res.bestsellers_date now books = .ok (db1, ba, ra)
        ∧ (processInitDate listId listName responses now st date).db
            = successRecord db1 "init" listName now
                res.published_date ra
        ∧ db1.sync_log = st.db.sync_log)
      ∨ (∃ msg,
        saveDataLoop st.db listId res.published_date
          res.bestsellers_date now books = .error msg
        ∧ (processInitDate listId listName responses now st date).db
            = failRecord st.db "init" listName now (some date) msg))
    ∧ (∀ (db : DB) (rc : Nat) (listName : String) (force : Bool)
        (env : Envelope) (res : ResultsBody) (books : List BookData)
        (l : ListRow) (now : String),
      db.lists.find?
        (fun x => x.list_name_encoded == listName) = some l →
      (l.list_id == 0) = false →
      env.results = some res →
      res.books = some books →
      (countExisting db l.list_id res.published_date > 0
        && !force) = false →
      (∃ db1 ba ra,
        saveDataLoop db l.list_id res.published_date
          res.bestsellers_date now books = .ok (db1, ba, ra)
        ∧ updateList db rc listName force (HttpResult.success env) now
            = (successRecord db1 "update" listName now
                res.published_date ra, rc + 1,
               .updated res.published_date ba ra)
        ∧ db1.sync_log = db.sync_log)
      ∨ (∃ msg,
        saveDataLoop db l.list_id res.published_date
          res.bestsellers_date now books = .error msg
        ∧ updateList db rc listName force (HttpResult.success env) now
            = (failRecord db "update" listName now none msg, rc + 1,
               .failed msg))) := by
  constructor
  · intro st listId listName responses now date rc env res books
      hfetch hres hbooks
    have hpid : (processInitDate listId listName responses now st
          date).db
        = (match saveData st.db "init" listId listName books
            res.published_date res.bestsellers_date now with
          | .ok (db1, _, _) => db1
          | .error msg =>
            failRecord st.db "init" listName now (some date) msg) := by
      unfold processInitDate
      rw [hfetch]
      dsimp only
      rw [hres]
      dsimp only
      rw [hbooks]
      dsimp only
      cases hsave : saveData st.db "init" listId listName books
          res.published_date res.bestsellers_date now with
      | ok q =>
        obtain ⟨db1, ba, ra⟩ := q
        rfl
      | error msg =>
        rfl
    cases hloop : saveDataLoop st.db listId res.published_date
        res.bestsellers_date now books with
    | ok q =>
      obtain ⟨db1, ba, ra⟩ := q
      have hsave : saveData st.db "init" listId listName books
          res.published_date res.bestsellers_date now
          = .ok (successRecord db1 "init" listName now
              res.published_date ra, ba, ra) := by
        unfold saveData
        rw [hloop]
      left
      refine ⟨db1, ba, ra, rfl, ?_,
        (saveDataLoop_ok listId res.published_date
          res.bestsellers_date now books st.db db1 ba ra
          hloop).2.2.2.1⟩
      rw [hpid, hsave]
    | error msg =>
      have hsave : saveData st.db "init" listId listName books
          res.published_date res.bestsellers_date now
          = .error msg := by
        unfold saveData
        rw [hloop]
      right
      refine ⟨msg, rfl, ?_⟩
      rw [hpid, hsave]
  · intro db rc listName force env res books l now hfind hid hres
      hbooks hskip
    have hcond := updateList_success_unfold db rc listName force env
      res books l now hfind hid hres hbooks
    rw [hcond, if_neg (by rw [hskip]; exact Bool.false_ne_true)]
    cases hloop : saveDataLoop db l.list_id res.published_date
        res.bestsellers_date now books with
    | ok q =>
      obtain ⟨db1, ba, ra⟩ := q
      have hsave : saveData db "update" l.list_id listName books
          res.published_date res.bestsellers_date now
          = .ok (successRecord db1 "update" listName now
              res.published_date ra, ba, ra) := by
        unfold saveData
        rw [hloop]
      left
      refine ⟨db1, ba, ra, rfl, ?_,
        (saveDataLoop_ok l.list_id res.published_date
          res.bestsellers_date now books db db1 ba ra
          hloop).2.2.2.1⟩
      rw [hsave]
    | error msg =>
      have hsave : saveData db "update" l.list_id listName books
          res.published_date res.bestsellers_date now
          = .error msg := by
        unfold saveData
        rw [hloop]
      right
      refine ⟨msg, rfl, ?_⟩
      rw [hsave]

/-- A remote record with no title: binding it into the NOT NULL
books.title column throws inside the transaction. -/
def c10bad : BookData := { primary_isbn13 := some "9780000000000" }

/-- A snapshot whose second record makes the transaction body throw
after the first record's writes. -/
def c10res : ResultsBody :=
  { books := some [wBookData, c10bad], published_date := 19723,
    bestsellers_date := 19718 }

/-- The corresponding envelope. -/
def c10env : Envelope := { results := some c10res }

/-- Witness for claim C10: the checkpoint ingesting the two-record
snapshot (whose second record throws mid-transaction) is
all-or-nothing as the theorem states. -/
theorem c10_success_record_transactional_witness :
    (∃ db1 ba ra,
      saveDataLoop c1db 1 c10res.published_date
        c10res.bestsellers_date "T1" [wBookData, c10bad]
        = .ok (db1, ba, ra)
      ∧ (processInitDate 1 "hardcover-fiction"
          (fun _ => HttpResult.success c10env) "T1"
          { db := c1db, requestCount := 0 } 19723).db
          = successRecord db1 "init" "hardcover-fiction" "T1"
              c10res.published_date ra
      ∧ db1.sync_log = c1db.sync_log)
    ∨ (∃ msg,
      saveDataLoop c1db 1 c10res.published_date
        c10res.bestsellers_date "T1" [wBookData, c10bad]
        = .error msg
      ∧ (processInitDate 1 "hardcover-fiction"
          (fun _ => HttpResult.success c10env) "T1"
          { db := c1db, requestCount := 0 } 19723).db
          = failRecord c1db "init" "hardcover-fiction" "T1"
              (some 19723) msg) :=
  c10_success_record_transactional.1
    { db := c1db, requestCount := 0 } 1 "hardcover-fiction"
    (fun _ => HttpResult.success c10env) "T1" 19723 1 c10env c10res
    [wBookData, c10bad] rfl rfl rfl

/-- Whether an updateList outcome counts as a failure in the update
orchestrator's tally (anything that is neither skipped nor updated). -/
def isFailureResult : UpdateResult → Bool
  | .notFound => true
  | .noData => true
  | .failed _ => true
  | .skipped _ => false
  | .updated _ _ _ => false

/-- What one run step never undoes: sync_log rows already written stay
(the log only grows at the end), and ranking triples already stored
stay present. -/
def preservedFrom (db db' : DB) : Prop :=
  (∃ tail, db'.sync_log = db.sync_log ++ tail)
  ∧ (∀ li bi p, hasTriple db li bi p = true →
      hasTriple db' li bi p = true)

/-- preservedFrom is reflexive. -/
theorem preservedFrom_refl (db : DB) : preservedFrom db db :=
  ⟨⟨[], by simp⟩, fun _ _ _ h => h⟩

/-- preservedFrom is transitive. -/
theorem preservedFrom_trans {a b c : DB} (h1 : preservedFrom a b)
    (h2 : preservedFrom b c) : preservedFrom a c := by
  obtain ⟨⟨t1, ht1⟩, hp1⟩ := h1
  obtain ⟨⟨t2, ht2⟩, hp2⟩ := h2
  exact ⟨⟨t1 ++ t2, by rw [ht2, ht1, List.append_assoc]⟩,
    fun li bi p h => hp2 _ _ _ (hp1 _ _ _ h)⟩

/-- Appending a failure record preserves everything already stored. -/
theorem preservedFrom_failRecord (db : DB) (ty n sd : String)
    (pd : Option Date) (msg : String) :
    preservedFrom db (failRecord db ty n sd pd msg) :=
  ⟨⟨_, rfl⟩, fun _ _ _ h => h⟩

/-- A committed save transaction preserves everything already stored
(its own sync_log growth is the one success record). -/
theorem preservedFrom_saveData (db db1 : DB) (ty : String)
    (listId : Nat) (n : String) (books : List BookData)
    (pd bsd : Date) (now : String) (ba ra : Nat)
    (h : saveData db ty listId n books pd bsd now
      = .ok (db1, ba, ra)) :
    preservedFrom db db1 := by
  unfold saveData at h
  cases hloop : saveDataLoop db listId pd bsd now books with
  | error e =>
    rw [hloop] at h
    exact absurd h (by simp)
  | ok q =>
    obtain ⟨db2, ba1, ra1⟩ := q
    rw [hloop] at h
    simp only [Except.ok.injEq, Prod.mk.injEq] at h
    obtain ⟨hdb, _, _⟩ := h
    obtain ⟨_, _, _, hs2, _, hp2⟩ :=
      saveDataLoop_ok listId pd bsd now books db db2 ba1 ra1 hloop
    rw [← hdb]
    constructor
    · refine ⟨[{ sync_id := db2.next_sync_id, sync_type := ty,
                 sync_list_name := some n, sync_date := now,
                 published_date := some pd, records_added := ra1,
                 status := "success", error_message := none }], ?_⟩
      show db2.sync_log ++ _ = _
      rw [hs2]
    · exact fun li bi p hh => hp2 li bi p hh

/-- One incremental-update list attempt preserves everything already
stored. -/
theorem preservedFrom_updateList (db : DB) (rc : Nat) (n : String)
    (f : Bool) (resp : HttpResult Envelope) (now : String) :
    preservedFrom db (updateList db rc n f resp now).1 := by
  unfold updateList
  repeat' split
  all_goals
    first
    | exact preservedFrom_refl db
    | (rename_i msg
       exact preservedFrom_failRecord db "update" n now none msg)
    | (rename_i db1 ba ra heq
       exact preservedFrom_saveData db db1 "update" _ n _ _ _ now
         ba ra heq)
    | (rename_i msg heq
       exact preservedFrom_failRecord db "update" n now none msg)

/-- One update-orchestrator loop iteration preserves everything
already stored. -/
theorem preservedFrom_updateStep
    (responses : String → HttpResult Envelope) (force : Bool)
    (now : String) (s : UpdateRun) (l : ListRow) :
    preservedFrom s.db (updateStep responses force now s l).db := by
  have hfrom := preservedFrom_updateList s.db s.requestCount
    l.list_name_encoded force (responses l.list_name_encoded) now
  unfold updateStep
  rcases hu : updateList s.db s.requestCount l.list_name_encoded
      force (responses l.list_name_encoded) now with ⟨db1, rc1, r⟩
  rw [hu] at hfrom
  cases r <;> exact hfrom

/-- The whole update-orchestrator loop preserves everything already
stored. -/
theorem preservedFrom_foldl_updateStep
    (responses : String → HttpResult Envelope) (force : Bool)
    (now : String) :
    ∀ (ls : List ListRow) (s : UpdateRun),
      preservedFrom s.db
        ((ls.foldl (updateStep responses force now) s)).db := by
  intro ls
  induction ls with
  | nil =>
    intro s
    exact preservedFrom_refl s.db
  | cons l rest ih =>
    intro s
    exact preservedFrom_trans
      (preservedFrom_updateStep responses force now s l)
      (ih (updateStep responses force now s l))

/-- One backfill checkpoint preserves everything already stored. -/
theorem preservedFrom_processInitDate (listId : Nat) (n : String)
    (resp : Date → HttpResult Envelope) (now : String)
    (st : InitState) (d : Date) :
    preservedFrom st.db (processInitDate listId n resp now st d).db := by
  unfold processInitDate
  repeat' split
  all_goals
    first
    | exact preservedFrom_refl st.db
    | (rename_i msg
       exact preservedFrom_failRecord st.db "init" n now (some d) msg)
    | (rename_i db1 ba ra heq
       exact preservedFrom_saveData st.db db1 "init" _ n _ _ _ now
         ba ra heq)
    | (rename_i msg heq
       exact preservedFrom_failRecord st.db "init" n now (some d) msg)

/-- The whole checkpoint grid of one list preserves everything. -/
theorem preservedFrom_processInitDates (listId : Nat) (n : String)
    (resp : Date → HttpResult Envelope) (now : String) :
    ∀ (dates : List Date) (st : InitState),
      preservedFrom st.db
        (processInitDates listId n resp now st dates).db := by
  intro dates
  induction dates with
  | nil =>
    intro st
    exact preservedFrom_refl st.db
  | cons d rest ih =>
    intro st
    exact preservedFrom_trans
      (preservedFrom_processInitDate listId n resp now st d)
      (ih (processInitDate listId n resp now st d))

/-- One whole-list history fetch preserves everything. -/
theorem preservedFrom_fetchListHistory (st : InitState) (n : String)
    (oldest newest : Date) (since : Option Date)
    (resp : Date → HttpResult Envelope) (now : String) :
    preservedFrom st.db
      (fetchListHistory st n oldest newest since resp now).db := by
  unfold fetchListHistory
  repeat' split
  all_goals
    first
    | exact preservedFrom_refl st.db
    | exact preservedFrom_processInitDates _ n resp now _ st

/-- The catalog sync never touches the sync_log table. -/
theorem saveLists_sync_log (ds : List ListDescriptor) :
    ∀ db : DB, (saveLists db ds).sync_log = db.sync_log := by
  induction ds with
  | nil =>
    intro db
    rfl
  | cons d rest ih =>
    intro db
    exact ih (insertOrReplaceList db d)

/-- One loop iteration adds one to the error tally exactly when the
list attempt failed. -/
theorem updateStep_errorCount
    (responses : String → HttpResult Envelope) (force : Bool)
    (now : String) (s : UpdateRun) (l : ListRow) :
    (updateStep responses force now s l).errorCount
      = s.errorCount +
        (if isFailureResult (updateList s.db s.requestCount
            l.list_name_encoded force
            (responses l.list_name_encoded) now).2.2 = true
         then 1 else 0) := by
  unfold updateStep
  rcases hu : updateList s.db s.requestCount l.list_name_encoded
      force (responses l.list_name_encoded) now with ⟨db1, rc1, r⟩
  cases r <;> simp [isFailureResult]

/-- The error tally never decreases along the update loop. -/
theorem errorCount_le_foldl_updateStep
    (responses : String → HttpResult Envelope) (force : Bool)
    (now : String) :
    ∀ (ls : List ListRow) (s : UpdateRun),
      s.errorCount ≤
        ((ls.foldl (updateStep responses force now) s)).errorCount := by
  intro ls
  induction ls with
  | nil =>
    intro s
    exact Nat.le_refl _
  | cons l rest ih =>
    intro s
    refine Nat.le_trans ?_ (ih (updateStep responses force now s l))
    rw [updateStep_errorCount]
    exact Nat.le_add_right _ _

/-- The per-list history fold of the init orchestrator preserves
everything already stored. -/
theorem preservedFrom_initFold (since : Option Date)
    (responses : String → Date → HttpResult Envelope) (now : String) :
    ∀ (ds : List ListDescriptor) (st : InitState),
      preservedFrom st.db
        ((ds.foldl (fun (st : InitState) (l : ListDescriptor) =>
          fetchListHistory st l.list_name_encoded
            l.oldest_published_date l.newest_published_date since
            (responses l.list_name_encoded) now) st)).db := by
  intro ds
  induction ds with
  | nil =>
    intro st
    exact preservedFrom_refl st.db
  | cons d rest ih =>
    intro st
    exact preservedFrom_trans
      (preservedFrom_fetchListHistory st d.list_name_encoded
        d.oldest_published_date d.newest_published_date since
        (responses d.list_name_encoded) now)
      (ih _)

/-- A one-list remote catalog whose single list has a one-day range. -/
def c4cat : List ListDescriptor :=
  [{ list_name_encoded := "hardcover-fiction",
     display_name := "Hardcover Fiction",
     list_name := "Hardcover Fiction",
     oldest_published_date := 19723, newest_published_date := 19723,
     updated := "W" }]

/-- Claim C4, counterexample: a full backfill run whose single
checkpoint fails (HTTP 500 on its fetch) records the failure in the
sync_log yet exits with status 0, not non-zero — the backfill
orchestrator never inspects its per-checkpoint error counts. -/
theorem c4_backfill_swallows_checkpoint_failure_counterexample :
    (initMainRun emptyDB (HttpResult.success c4cat) none none
      (fun _ _ => HttpResult.failure 500 "Internal Server Error")
      "T1").2 = 0
    ∧ ((initMainRun emptyDB (HttpResult.success c4cat) none none
      (fun _ _ => HttpResult.failure 500 "Internal Server Error")
      "T1").1.db.sync_log.map (fun s => (s.status, s.error_message)))
      = [("error",
          some (httpErrorMsg 500 "Internal Server Error"))] := by
  constructor
  · rfl
  · have hcd : checkpointDates 19723 19723 = [19723] := by
      simp [checkpointDates]
    have h0 : (initMainRun emptyDB (HttpResult.success c4cat) none
        none
        (fun _ _ => HttpResult.failure 500 "Internal Server Error")
        "T1").1
        = processInitDates 1 "hardcover-fiction"
            (fun _ => HttpResult.failure 500 "Internal Server Error")
            "T1" { db := saveLists emptyDB c4cat, requestCount := 1 }
            (checkpointDates 19723 19723) := rfl
    rw [h0, hcd]
    decide

/-- Claim C4, amended: the incremental-update orchestrator exits with
status 1 whenever at least one of its list attempts fails, while the
backfill orchestrator always exits with status 0 once the catalog
fetch has succeeded, even when checkpoints failed; in both
orchestrators, data committed by earlier successful checkpoints is
retained (sync_log rows already written stay, and every stored
ranking triple is still present at the end of the run). -/
theorem c4_orchestrator_exit_amended :
    (∀ (db : DB) (force : Bool)
        (responses : String → HttpResult Envelope) (now : String)
        (pre post : List ListRow) (l : ListRow),
      sortLists db.lists = pre ++ l :: post →
      isFailureResult
        (updateList
          (pre.foldl (updateStep responses force now)
            (updateRun0 db)).db
          (pre.foldl (updateStep responses force now)
            (updateRun0 db)).requestCount
          l.list_name_encoded force (responses l.list_name_encoded)
          now).2.2 = true →
      (updateMainRun db force responses now).2 = 1)
    ∧ (∀ (db : DB) (ds : List ListDescriptor)
        (lf : Option (List String)) (since : Option Date)
        (responses : String → Date → HttpResult Envelope)
        (now : String),
      (initMainRun db (HttpResult.success ds) lf since responses
        now).2 = 0)
    ∧ (∀ (db : DB) (force : Bool)
        (responses : String → HttpResult Envelope) (now : String),
      preservedFrom db (updateMainRun db force responses now).1.db)
    ∧ (∀ (db : DB) (ds : List ListDescriptor)
        (lf : Option (List String)) (since : Option Date)
        (responses : String → Date → HttpResult Envelope)
        (now : String),
      preservedFrom db
        (initMainRun db (HttpResult.success ds) lf since responses
          now).1.db) := by
  refine ⟨?_, ?_, ?_, ?_⟩
  · intro db force responses now pre post l hsplit hfail
    unfold updateMainRun
    rw [hsplit, List.foldl_append, List.foldl_cons]
    have hstep : 1 ≤ (updateStep responses force now
        (pre.foldl (updateStep responses force now) (updateRun0 db))
        l).errorCount := by
      rw [updateStep_errorCount, hfail, if_pos rfl]
      omega
    have hle := errorCount_le_foldl_updateStep responses force now
      post
      (updateStep responses force now
        (pre.foldl (updateStep responses force now) (updateRun0 db))
        l)
    have hpos : (post.foldl (updateStep responses force now)
        (updateStep responses force now
          (pre.foldl (updateStep responses force now)
            (updateRun0 db)) l)).errorCount > 0 := by omega
    show (if (post.foldl (updateStep responses force now)
        (updateStep responses force now
          (pre.foldl (updateStep responses force now)
            (updateRun0 db)) l)).errorCount > 0
      then 1 else 0) = 1
    rw [if_pos hpos]
  · intro db ds lf since responses now
    rfl
  · intro db force responses now
    exact preservedFrom_foldl_updateStep responses force now
      (sortLists db.lists) (updateRun0 db)
  · intro db ds lf since responses now
    have h1 : preservedFrom db
        (if ds.length > 0 then saveLists db ds else db) := by
      by_cases h : ds.length > 0
      · rw [if_pos h]
        constructor
        · exact ⟨[], by rw [saveLists_sync_log, List.append_nil]⟩
        · intro li bi p hh
          unfold hasTriple at hh ⊢
          rw [saveLists_rankings]
          exact hh
      · rw [if_neg h]
        exact preservedFrom_refl db
    exact preservedFrom_trans h1
      (preservedFrom_initFold since responses now _
        { db := if ds.length > 0 then saveLists db ds else db,
          requestCount := 1 })

/-- A store holding one already-synced list for the update witness. -/
def c4updateDB : DB :=
  { emptyDB with lists := [c6list], next_list_id := 2 }

/-- Witness for the amended claim C4: the one-list update run whose
single attempt fails with HTTP 500 exits with status 1. -/
theorem c4_orchestrator_exit_amended_witness :
    (updateMainRun c4updateDB false
      (fun _ => HttpResult.failure 500 "Internal Server Error")
      "T1").2 = 1 :=
  c4_orchestrator_exit_amended.1 c4updateDB false
    (fun _ => HttpResult.failure 500 "Internal Server Error") "T1"
    [] [] c6list (by decide) (by decide)

end Bestsellers

